import Mathlib

/-!
Shallow embedding of the cross-widget selection-synchronization bus of the
fusedmaps repository.

The widgets are HTML/JS documents generated by the Python UDFs in
`src/charts/`.  The logic the claims are about lives in the embedded
JavaScript:

* `src/charts/chart1.py`   — scatter plot: `sendMessageToMap`,
  `broadcastClearSelection`, `clearSelection`, `highlightField`,
  `handleMessage` (lines 623–658).
* `src/charts/chart2.py`   — bar chart ("histogram"): `busSend`,
  `sendMessageToMap`, `getIdFromMessage`, `handleMessage` (lines 665–678),
  bar click handler (lines 527–535).
* `src/charts/chart3.py`   — second bar chart, whose bus code
  (`busSend`, `sendMessageToMap`, `getIdFromMessage`, `handleMessage`,
  bar click handler) is textually identical to chart2's.
* `src/charts/selector.py` — plain location dropdown: `busSend`,
  `sendLocation`, auto-select on load (lines 209–221).
* `src/charts/bcg_dropdown.py` — farm/field dropdown: `busSend`,
  `addPaddingToBounds`, `sendLocation`, auto-select on load (lines 391–417).

JavaScript values that flow through the handlers here are strings (field
names); absent / `undefined` fields are modelled as `Option`.
-/

namespace FusedMaps

/-- JavaScript truthiness restricted to the optional-string values that the
handlers test: `undefined`/`null` and the empty string are falsy, every other
string is truthy. -/
def jsTruthy : Option String → Bool
  | none => false
  | some s => s ≠ ""

/-- JavaScript `a || b` on optional strings: yields `a` when `a` is truthy,
otherwise yields `b` unchanged. -/
def jsOr (a b : Option String) : Option String :=
  if jsTruthy a then a else b

/-- JavaScript `a ?? b` (nullish coalescing) on optional strings. -/
def jsNullish (a b : Option String) : Option String :=
  match a with
  | some v => some v
  | none => b

/-- Lookup of a key in a JS object modelled as an association list
(`obj[k]`, `undefined` when absent). -/
def lookupField (l : List (String × String)) (k : String) : Option String :=
  (l.find? (fun p => p.1 == k)).map Prod.snd

/-- Payload of the `location` field of a `location_change` message, as built
by `sendLocation` in `selector.py` / `bcg_dropdown.py`. -/
structure LocationPayload where
  name : String
  bounds : List Rat
  center : Rat × Rat
  farm : Option String := none
  field : Option String := none
deriving Repr, DecidableEq

/-- A bus message.  Every field the embedded JavaScript reads or writes is
present; `none` models an absent (`undefined`) field.  `fields` holds the
remaining top-level string fields (e.g. the top-level `"Field Name"` that
chart1 puts beside `properties`). -/
structure Msg where
  type : Option String := none
  message_type : Option String := none
  source : Option String := none
  fromComponent : Option String := none
  timestamp : Option Nat := none
  selectionType : Option String := none
  properties : Option (List (String × String)) := none
  fields : List (String × String) := []
  bounds : Option (List Rat) := none
  location : Option LocationPayload := none
deriving Repr, DecidableEq

/-- The line `const type = msg.type || msg.message_type;` — the effective type of an
inbound message (all three chart handlers). -/
def effType (msg : Msg) : Option String :=
  jsOr msg.type msg.message_type

/-- Decoration instruction a handler emits to the renderer:
`keep` (no decoration change), `clearAll` (remove all highlighted/dimmed
classes), or `highlight x` (highlight the entity named `x`, dim the rest). -/
inductive Decor where
  | keep
  | clearAll
  | highlight (id : String)
deriving Repr, DecidableEq

/-- Meaning of `classed('highlighted', d => d["Field Name"] === fieldName)`:
whether the decoration instruction marks the entity named `y` highlighted. -/
def decorHighlights : Decor → String → Bool
  | .highlight x, y => x == y
  | _, _ => false

/-- Meaning of `classed('dimmed', d => d["Field Name"] !== fieldName)`:
whether the decoration instruction marks the entity named `y` dimmed. -/
def decorDims : Decor → String → Bool
  | .highlight x, y => x != y
  | _, _ => false

/-- A widget's selection state: `none` is Idle, `some id` is the currently
selected entity (`currentSelection` in the JavaScript). -/
abbrev SelState := Option String

/-! ## chart1.py — scatter plot -/

/-- The `ID_FIELDS` list of chart1.py (line 103 / 346): the only recognized identity
field of the scatter plot. -/
def chart1_ID_FIELDS : List String := ["Field Name"]

/-- The identity-extraction loop of chart1.py `handleMessage`
(lines 639–643): `itemId = props[field] || msg[field]` over `ID_FIELDS`,
breaking on a non-null, non-empty value; the subsequent `if (!itemId) return`
discards `null`/`undefined` and the empty string, so the result is `none`
exactly when the handler returns without acting. -/
def chart1_getId (msg : Msg) : Option String :=
  let props := msg.properties.getD []
  let itemId := jsOr (lookupField props "Field Name") (lookupField msg.fields "Field Name")
  if jsTruthy itemId then itemId else none

/-- chart1.py `handleMessage` (lines 623–658), as a pure reducer from the
inbound message and the current selection to the new selection and the
decoration instruction. -/
def chart1_handleMessage (msg : Msg) (s : SelState) : SelState × Decor :=
  if msg.source = some "scatter_plot" then (s, .keep)
  else
    let t := effType msg
    if t = some "clear_selection" ∨ t = some "feature_deselect" then (none, .clearAll)
    else if ¬ (t = some "hex_click" ∨ t = some "feature_click") then (s, .keep)
    else
      match chart1_getId msg with
      | none => (s, .keep)
      | some id => (some id, .highlight id)

/-- The `feature_click` message chart1.py `sendMessageToMap` builds
(lines 238–248): top-level and `properties` copies of the field name, the
field's bounds, and the origin tag `source: 'scatter_plot'` — no
`fromComponent`. -/
def chart1_featureClickMsg (name : String) (b : Option (List Rat)) : Msg :=
  { type := some "feature_click"
    fields := [("Field Name", name)]
    properties := some [("Field Name", name)]
    bounds := b
    source := some "scatter_plot" }

/-- The `clear_selection` message chart1.py `broadcastClearSelection` builds
(line 273). -/
def chart1_clearMsg : Msg :=
  { type := some "clear_selection", source := some "scatter_plot" }

/-! ## chart2.py / chart3.py — bar charts ("histogram") -/

/-- The `ID_FIELDS` list of chart2.py (line 257) and chart3.py (line 249). -/
def histogram_ID_FIELDS : List String :=
  ["Field Name", "FIELD_NAME", "field_name", "name"]

/-- The test `String(v).trim() !== ''`: the string has a non-whitespace character. -/
def nonBlank (s : String) : Bool :=
  s.data.any (fun c => !c.isWhitespace)

/-- The loop body of `getIdFromMessage`: first key whose value
(`props?.[k] ?? msg?.[k]`) is non-null with non-blank `String(v).trim()`. -/
def getIdFromList (props fields : List (String × String)) :
    List String → Option String
  | [] => none
  | k :: rest =>
    match jsNullish (lookupField props k) (lookupField fields k) with
    | some v => if nonBlank v then some v else getIdFromList props fields rest
    | none => getIdFromList props fields rest

/-- Function `getIdFromMessage` of chart2.py (lines 305–312) and chart3.py
(lines 298–305). -/
def getIdFromMessage (msg : Msg) : Option String :=
  getIdFromList (msg.properties.getD []) msg.fields histogram_ID_FIELDS

/-- Function `handleMessage` of chart2.py (lines 665–678); chart3.py (lines 571–584)
contains the identical function.  Drops messages tagged
`source === 'histogram'`, clears on `clear_selection`/`feature_deselect`,
highlights on `feature_click`/`hex_click` with a recognized id, and ignores
everything else. -/
def histogram_handleMessage (msg : Msg) (s : SelState) : SelState × Decor :=
  if msg.source = some "histogram" then (s, .keep)
  else
    let t := effType msg
    if t = some "clear_selection" ∨ t = some "feature_deselect" then (none, .clearAll)
    else if ¬ (t = some "hex_click" ∨ t = some "feature_click") then (s, .keep)
    else
      match getIdFromMessage msg with
      | none => (s, .keep)
      | some id => (some id, .highlight id)

/-- chart2.py `handleMessage` is the `histogram_handleMessage` reducer. -/
def chart2_handleMessage : Msg → SelState → SelState × Decor :=
  histogram_handleMessage

/-- chart3.py `handleMessage` is the same reducer, byte for byte. -/
def chart3_handleMessage : Msg → SelState → SelState × Decor :=
  histogram_handleMessage

/-- The `feature_click` message `sendMessageToMap` of chart2.py
(lines 279–287) builds, tagged `source: 'histogram'` — no `fromComponent`. -/
def histogram_featureClickMsg (name : String) (b : Option (List Rat)) : Msg :=
  { type := some "feature_click"
    properties := some [("Field Name", name)]
    bounds := b
    source := some "histogram" }

/-- chart2.py's outgoing click message. -/
def chart2_featureClickMsg : String → Option (List Rat) → Msg :=
  histogram_featureClickMsg

/-- chart3.py `sendMessageToMap` (lines 272–280) builds the identical
message. -/
def chart3_featureClickMsg : String → Option (List Rat) → Msg :=
  histogram_featureClickMsg

/-- The `clear_selection` message the bar charts broadcast on a background
click (chart2.py line 467, chart3.py line 377). -/
def histogram_clearMsg : Msg :=
  { type := some "clear_selection", source := some "histogram" }

/-- The bar click handler of chart2.py (lines 527–535) and chart3.py
(lines 432–440): clicking the currently selected bar clears the selection
(no broadcast); clicking any other bar highlights it and publishes the
`feature_click` message.  Result: new selection, decoration instruction,
and the message published on the bus (if any). -/
def histogram_barClick (d : String) (b : Option (List Rat)) (s : SelState) :
    SelState × Decor × Option Msg :=
  if s = some d then (none, .clearAll, none)
  else (some d, .highlight d, some (histogram_featureClickMsg d b))

/-! ## selector.py / bcg_dropdown.py — location dropdowns -/

/-- One entry of the `LOCATIONS` array.  The Python side of both dropdowns
(selector.py lines 44–57, bcg_dropdown.py lines 42–55) raises `ValueError`
unless every location is a dict with a `name` and a 4-element `bounds`, so
the embedded JavaScript only ever sees locations of this shape;
`bcg_dropdown.py` additionally attaches a `farm` name to every location. -/
structure Location where
  name : String
  west : Rat
  south : Rat
  east : Rat
  north : Rat
  farm : Option String := none
deriving Repr, DecidableEq

/-- JS `Array.prototype.findIndex` specialised to locations (used by the
auto-select blocks of both dropdowns). -/
def jsFindIndex (p : Location → Bool) : List Location → Option Nat
  | [] => none
  | l :: rest => if p l then some 0 else (jsFindIndex p rest).map (· + 1)

/-- The id `componentId = 'location-selector-' + Math.random().toString(36).substr(2, 9)`
(selector.py line 151, bcg_dropdown.py line 201), with the random suffix an
input. -/
def selector_componentId (rand : String) : String :=
  "location-selector-" ++ rand

/-- The `location_change` message selector.py `sendLocation` builds
(lines 182–201): name, raw bounds, computed center, a `fromComponent`
identity and a timestamp. -/
def selector_locationMsg (compId : String) (ts : Nat) (loc : Location) : Msg :=
  { type := some "location_change"
    fromComponent := some compId
    timestamp := some ts
    location := some
      { name := loc.name
        bounds := [loc.west, loc.south, loc.east, loc.north]
        center := ((loc.west + loc.east) / 2, (loc.south + loc.north) / 2) } }

/-- selector.py `sendLocation(index)`: `const loc = LOCATIONS[index];
if (!loc || !loc.bounds) return;` then publish.  `none` models the early
return (nothing published). -/
def selector_sendLocation (locs : List Location) (compId : String) (ts : Nat)
    (index : Nat) : Option Msg :=
  match locs.get? index with
  | none => none
  | some loc => some (selector_locationMsg compId ts loc)

/-- The `setTimeout` delay (in milliseconds) of the auto-select blocks of
selector.py (line 220) and bcg_dropdown.py (line 416). -/
def autoSelectDelayMs : Nat := 100

/-- The target index the selector.py auto-select block computes
(lines 209–221): the index of the location whose name equals `DEFAULT_NAME`
when that is set and matches, otherwise `0` (the first location). -/
def selector_autoTargetIndex (locs : List Location) (defaultName : Option String) :
    Nat :=
  if jsTruthy defaultName then
    match jsFindIndex (fun loc => some loc.name == defaultName) locs with
    | some i => i
    | none => 0
  else 0

/-- The message selector.py publishes on load without user interaction:
when `LOCATIONS` is non-empty it calls `sendLocation(targetIndex)` after the
100 ms timeout, otherwise nothing happens. -/
def selector_autoMessage (locs : List Location) (defaultName : Option String)
    (compId : String) (ts : Nat) : Option Msg :=
  if locs.length > 0 then
    selector_sendLocation locs compId ts (selector_autoTargetIndex locs defaultName)
  else none

/-- Function `addPaddingToBounds(bounds, 10)` of bcg_dropdown.py (lines 224–231). -/
def addPaddingToBounds (minX minY maxX maxY : Rat) : Rat × Rat × Rat × Rat :=
  let padX := (maxX - minX) * 10 / 100
  let padY := (maxY - minY) * 10 / 100
  (minX - padX, minY - padY, maxX + padX, maxY + padY)

/-- The `location_change` message bcg_dropdown.py `sendLocation` builds
(lines 301–326): padded bounds, `selectionType: 'field'`, and both the
`field` and `farm` names inside the location payload. -/
def bcgDropdown_locationMsg (compId : String) (ts : Nat) (loc : Location) : Msg :=
  let (w, s, e, n) := addPaddingToBounds loc.west loc.south loc.east loc.north
  { type := some "location_change"
    fromComponent := some compId
    timestamp := some ts
    selectionType := some "field"
    location := some
      { name := loc.name
        field := some loc.name
        farm := loc.farm
        bounds := [w, s, e, n]
        center := ((w + e) / 2, (s + n) / 2) } }

/-- bcg_dropdown.py `sendLocation(index)` for a numeric index (the `''`
sentinel is handled by the caller in `bcgDropdown_autoMessage`). -/
def bcgDropdown_sendLocation (locs : List Location) (compId : String) (ts : Nat)
    (index : Nat) : Option Msg :=
  match locs.get? index with
  | none => none
  | some loc => some (bcgDropdown_locationMsg compId ts loc)

/-- The message bcg_dropdown.py publishes on load (lines 391–417):
`targetIndex` starts as the sentinel `''` and is only replaced by an index
when `DEFAULT_NAME` is set and matches a location name; `sendLocation` is
called only when `targetIndex !== ''`, so nothing is published unless a
default location name matches. -/
def bcgDropdown_autoMessage (locs : List Location) (defaultName : Option String)
    (compId : String) (ts : Nat) : Option Msg :=
  if locs.length > 0 then
    if jsTruthy defaultName then
      match jsFindIndex (fun loc => some loc.name == defaultName) locs with
      | some i => bcgDropdown_sendLocation locs compId ts i
      | none => none
    else none
  else none

/-! ## Delivery paths of `publish` -/

/-- A fan-out delivery path of the bus. -/
inductive SendPath where
  | broadcastChannel
  | parentWindow
  | selfWindow
  | topWindow
  | siblingFrame (i : Nat)
deriving Repr, DecidableEq

/-- One `postMessage` statement of a publish function: the path it posts on
and whether the statement sits inside its own `try { … } catch(e) {}`. -/
structure SendStmt where
  path : SendPath
  wrapped : Bool
deriving Repr, DecidableEq

/-- Run a sequence of send statements under an environment telling which
paths throw.  Returns the list of paths actually attempted and whether an
exception escapes to the caller: an unwrapped statement whose path throws
aborts the remaining statements and propagates; a wrapped one swallows the
exception and execution continues. -/
def runSends (throws : SendPath → Bool) : List SendStmt → List SendPath × Bool
  | [] => ([], false)
  | st :: rest =>
    if throws st.path && !st.wrapped then ([st.path], true)
    else
      let (ps, e) := runSends throws rest
      (st.path :: ps, e)

/-- The statements of chart1.py `sendMessageToMap` (lines 238–257):
`if (bc) bc.postMessage(message); window.parent.postMessage(message, '*');
window.postMessage(message, '*');` — none of them wrapped in try/catch. -/
def chart1_sendMessageToMap_stmts (bcPresent : Bool) : List SendStmt :=
  (if bcPresent then [⟨.broadcastChannel, false⟩] else []) ++
    [⟨.parentWindow, false⟩, ⟨.selfWindow, false⟩]

/-- The statements of `busSend` in chart2.py (lines 263–277) and chart3.py
(lines 255–270): BroadcastChannel, parent, self, top (when distinct from the
parent) and every sibling frame, each `postMessage` inside its own
`try { … } catch(e) {}`. -/
def busSend_stmts (bcPresent topDistinct : Bool) (numFrames : Nat) :
    List SendStmt :=
  (if bcPresent then [⟨.broadcastChannel, true⟩] else []) ++
    [⟨.parentWindow, true⟩, ⟨.selfWindow, true⟩] ++
    (if topDistinct then [⟨.topWindow, true⟩] else []) ++
    (List.range numFrames).map (fun i => ⟨.siblingFrame i, true⟩)

/-- The statements of chart1.py `broadcastClearSelection` (lines 272–287),
which, unlike chart1's `sendMessageToMap`, wraps every path. -/
def chart1_broadcastClear_stmts (bcPresent topDistinct : Bool)
    (numFrames : Nat) : List SendStmt :=
  (if bcPresent then [⟨.broadcastChannel, true⟩] else []) ++
    [⟨.parentWindow, true⟩, ⟨.selfWindow, true⟩] ++
    (if topDistinct then [⟨.topWindow, true⟩] else []) ++
    (List.range numFrames).map (fun i => ⟨.siblingFrame i, true⟩)

/-! ## Helper lemmas -/

theorem nonBlank_ne_empty {s : String} (h : nonBlank s = true) : s ≠ "" := by
  intro he
  subst he
  simp [nonBlank] at h

theorem jsFindIndex_eq_some {p : Location → Bool} {locs : List Location} {i : Nat}
    (h : jsFindIndex p locs = some i) :
    ∃ loc, locs.get? i = some loc ∧ p loc = true := by
  induction locs generalizing i with
  | nil => simp [jsFindIndex] at h
  | cons l rest ih =>
    by_cases hp : p l
    · simp [jsFindIndex, hp] at h
      exact ⟨l, by simp [← h], hp⟩
    · simp [jsFindIndex, hp] at h
      obtain ⟨j, hj, rfl⟩ := h
      obtain ⟨loc, hget, hploc⟩ := ih hj
      exact ⟨loc, by simpa using hget, hploc⟩

theorem jsFindIndex_isSome_of_mem {p : Location → Bool} {locs : List Location}
    {loc : Location} (hmem : loc ∈ locs) (hp : p loc = true) :
    (jsFindIndex p locs).isSome = true := by
  induction locs with
  | nil => simp at hmem
  | cons l rest ih =>
    rcases List.mem_cons.mp hmem with rfl | hmem'
    · simp [jsFindIndex, hp]
    · by_cases hl : p l
      · simp [jsFindIndex, hl]
      · simpa [jsFindIndex, hl] using ih hmem'

theorem runSends_allWrapped (throws : SendPath → Bool) (stmts : List SendStmt)
    (h : ∀ st ∈ stmts, st.wrapped = true) :
    runSends throws stmts = (stmts.map SendStmt.path, false) := by
  induction stmts with
  | nil => rfl
  | cons st rest ih =>
    have hst : st.wrapped = true := h st (List.mem_cons_self _ _)
    have hrest := ih (fun s hs => h s (List.mem_cons_of_mem _ hs))
    simp [runSends, hst, hrest]

theorem busSend_stmts_wrapped (bcPresent topDistinct : Bool) (numFrames : Nat) :
    ∀ st ∈ busSend_stmts bcPresent topDistinct numFrames, st.wrapped = true := by
  intro st hst
  simp only [busSend_stmts, List.mem_append, List.mem_map, List.mem_range] at hst
  rcases hst with ((h | h) | h) | h
  · cases bcPresent <;> simp_all
  · simp only [List.mem_cons, List.mem_singleton] at h
    rcases h with rfl | rfl | h <;> simp_all
  · cases topDistinct <;> simp_all
  · obtain ⟨i, -, rfl⟩ := h
    rfl

theorem chart1_broadcastClear_stmts_wrapped (bcPresent topDistinct : Bool)
    (numFrames : Nat) :
    ∀ st ∈ chart1_broadcastClear_stmts bcPresent topDistinct numFrames,
      st.wrapped = true := by
  intro st hst
  simp only [chart1_broadcastClear_stmts, List.mem_append, List.mem_map,
    List.mem_range] at hst
  rcases hst with ((h | h) | h) | h
  · cases bcPresent <;> simp_all
  · simp only [List.mem_cons, List.mem_singleton] at h
    rcases h with rfl | rfl | h <;> simp_all
  · cases topDistinct <;> simp_all
  · obtain ⟨i, -, rfl⟩ := h
    rfl

/-! ## Claims -/

/-- C1, counterexample.  The claim says a widget discards an inbound message
exactly when `m.fromComponent` equals the widget's identity, and that every
message originating from any other widget is processed normally, for all
message types.  In the code the bar charts' guard tests `msg.source` against
the shared kind tag `'histogram'` instead: a `clear_selection` carrying a
`fromComponent` of a *different* widget but the tag `'histogram'` (exactly
what the other bar chart publishes) is discarded and leaves the selection
`Selected "A"` untouched, whereas the same message with a different tag is
processed normally (state becomes Idle). -/
theorem c1_counterexample :
    (Msg.fromComponent
        { type := some "clear_selection"
          source := some "histogram"
          fromComponent := some "other-widget" } = some "other-widget") ∧
    histogram_handleMessage
        { type := some "clear_selection"
          source := some "histogram"
          fromComponent := some "other-widget" } (some "A") = (some "A", Decor.keep) ∧
    histogram_handleMessage
        { type := some "clear_selection"
          source := some "selector"
          fromComponent := some "other-widget" } (some "A") = (none, Decor.clearAll) := by
  decide

/-- C1, amended.  The echo guard of each chart widget discards an inbound
message exactly when `msg.source` equals the widget's own origin kind tag
(`'scatter_plot'` for the scatter plot, `'histogram'` for both bar charts);
`fromComponent` is never consulted.  Echo suppression does hold: every
message a chart publishes carries its own tag, so delivery of a widget's own
message back to it never changes its state, for all message types it
publishes (`feature_click` and `clear_selection`). -/
theorem c1_amended (msg : Msg) (s : SelState) (name : String)
    (b : Option (List Rat)) :
    (msg.source = some "histogram" → histogram_handleMessage msg s = (s, .keep)) ∧
    (msg.source = some "scatter_plot" → chart1_handleMessage msg s = (s, .keep)) ∧
    histogram_handleMessage (histogram_featureClickMsg name b) s = (s, .keep) ∧
    histogram_handleMessage histogram_clearMsg s = (s, .keep) ∧
    chart1_handleMessage (chart1_featureClickMsg name b) s = (s, .keep) ∧
    chart1_handleMessage chart1_clearMsg s = (s, .keep) := by
  refine ⟨?_, ?_, ?_, ?_, ?_, ?_⟩
  · intro h
    simp [histogram_handleMessage, h]
  · intro h
    simp [chart1_handleMessage, h]
  · simp [histogram_handleMessage, histogram_featureClickMsg]
  · simp [histogram_handleMessage, histogram_clearMsg]
  · simp [chart1_handleMessage, chart1_featureClickMsg]
  · simp [chart1_handleMessage, chart1_clearMsg]

/-- C1, witness for the amended theorem at a concrete input. -/
theorem c1_amended_witness :
    ((Msg.source { type := some "feature_click", source := some "histogram" }
        = some "histogram") ∧
      histogram_handleMessage { type := some "feature_click", source := some "histogram" }
        (some "A") = (some "A", .keep)) ∧
    histogram_handleMessage (histogram_featureClickMsg "F12" none) none
      = (none, .keep) := by
  refine ⟨⟨rfl, ?_⟩, ?_⟩
  · exact (c1_amended { type := some "feature_click", source := some "histogram" }
      (some "A") "F12" none).1 rfl
  · exact (c1_amended { type := some "feature_click", source := some "histogram" }
      none "F12" none).2.2.1

/-- C2, counterexample.  The claim says a raw payload lacking `fromComponent`,
or whose type is not one of the four schema types (`location_change`,
`feature_click`, `clear_selection`, `feature_deselect`), is discarded before
reaching the selection state machine, leaving the state unchanged.  The
concrete message below has no `fromComponent` at all and the type
`hex_click`, which is none of the four — yet the bar-chart handler processes
it: the selection state changes from Idle to `Selected "A"`. -/
theorem c2_counterexample :
    (Msg.fromComponent
        { type := some "hex_click"
          source := some "map"
          properties := some [("Field Name", "A")] } = none) ∧
    (Msg.type
        { type := some "hex_click"
          source := some "map"
          properties := some [("Field Name", "A")] } ≠ some "location_change") ∧
    (Msg.type
        { type := some "hex_click"
          source := some "map"
          properties := some [("Field Name", "A")] } ≠ some "feature_click") ∧
    (Msg.type
        { type := some "hex_click"
          source := some "map"
          properties := some [("Field Name", "A")] } ≠ some "clear_selection") ∧
    (Msg.type
        { type := some "hex_click"
          source := some "map"
          properties := some [("Field Name", "A")] } ≠ some "feature_deselect") ∧
    histogram_handleMessage
        { type := some "hex_click"
          source := some "map"
          properties := some [("Field Name", "A")] } none
      = (some "A", Decor.highlight "A") := by
  decide

/-- C2, amended.  The chart handlers never examine `fromComponent`, so a
missing `fromComponent` causes no rejection.  A message whose effective type
(`msg.type || msg.message_type`) is none of `clear_selection`,
`feature_deselect`, `hex_click`, `feature_click` is discarded silently with
no state change and no decoration change; `hex_click` — although not one of
the four schema types — is honored exactly like `feature_click`. -/
theorem c2_amended (msg : Msg) (s : SelState) (fc : Option String)
    (h1 : effType msg ≠ some "clear_selection")
    (h2 : effType msg ≠ some "feature_deselect")
    (h3 : effType msg ≠ some "hex_click")
    (h4 : effType msg ≠ some "feature_click") :
    histogram_handleMessage msg s = (s, .keep) ∧
    chart1_handleMessage msg s = (s, .keep) ∧
    histogram_handleMessage { msg with fromComponent := fc } s
      = histogram_handleMessage msg s ∧
    chart1_handleMessage { msg with fromComponent := fc } s
      = chart1_handleMessage msg s := by
  refine ⟨?_, ?_, ?_, ?_⟩
  · by_cases hg : msg.source = some "histogram"
    · simp [histogram_handleMessage, hg]
    · simp [histogram_handleMessage, hg, h1, h2, h3, h4]
  · by_cases hg : msg.source = some "scatter_plot"
    · simp [chart1_handleMessage, hg]
    · simp [chart1_handleMessage, hg, h1, h2, h3, h4]
  · cases msg
    rfl
  · cases msg
    rfl

/-- C2, witness for the amended theorem: a `location_change` message is
silently ignored by the chart handlers. -/
theorem c2_amended_witness :
    (effType { type := some "location_change", source := some "sel" }
        ≠ some "clear_selection") ∧
    histogram_handleMessage { type := some "location_change", source := some "sel" }
      (some "A") = (some "A", .keep) := by
  refine ⟨by decide, ?_⟩
  exact (c2_amended { type := some "location_change", source := some "sel" }
    (some "A") (some "x") (by decide) (by decide) (by decide) (by decide)).1

/-- C3, counterexample.  The claim says every published message carries a
non-empty `fromComponent` and that a validator rejects (never publishes)
messages without one.  The scatter plot's `sendMessageToMap` builds a
`feature_click` with no `fromComponent` field at all and posts it
unconditionally on every delivery path (BroadcastChannel, parent window, own
window) — there is no validator anywhere on the publish path. -/
theorem c3_counterexample :
    (chart1_featureClickMsg "F12" none).fromComponent = none ∧
    runSends (fun _ => false) (chart1_sendMessageToMap_stmts true)
      = ([SendPath.broadcastChannel, SendPath.parentWindow, SendPath.selfWindow],
          false) := by
  decide

/-- C3, amended.  Only the two dropdown widgets attach a `fromComponent`,
always the non-empty string `'location-selector-' + <random suffix>`; the
chart widgets publish messages carrying no `fromComponent` at all (their
origin mark is the `source` kind tag), and no validator exists: every
constructed message is published unconditionally. -/
theorem c3_amended (rand : String) (ts : Nat) (loc : Location) (name : String)
    (b : Option (List Rat)) :
    (selector_locationMsg (selector_componentId rand) ts loc).fromComponent
      = some (selector_componentId rand) ∧
    (bcgDropdown_locationMsg (selector_componentId rand) ts loc).fromComponent
      = some (selector_componentId rand) ∧
    selector_componentId rand ≠ "" ∧
    (chart1_featureClickMsg name b).fromComponent = none ∧
    (histogram_featureClickMsg name b).fromComponent = none ∧
    chart1_clearMsg.fromComponent = none ∧
    histogram_clearMsg.fromComponent = none := by
  refine ⟨rfl, rfl, ?_, rfl, rfl, rfl, rfl⟩
  intro h
  have hlen := congrArg String.length h
  simp [selector_componentId, String.length_append] at hlen
  exact absurd hlen.1 (by decide)

/-- C4, confirmed as stated.  A `feature_click` lacking every recognized
identity field is ignored by both the scatter-plot and the bar-chart
handlers: the previous selection state and decoration are retained, and it
is never treated as a clear — a handler result of Idle from a non-Idle state
only ever arises from an explicit `clear_selection` or `feature_deselect`
effective type. -/
theorem c4_missing_id_ignored (msg : Msg) (s : SelState)
    (ht : effType msg = some "feature_click")
    (h1 : chart1_getId msg = none)
    (h2 : getIdFromMessage msg = none) :
    chart1_handleMessage msg s = (s, .keep) ∧
    histogram_handleMessage msg s = (s, .keep) ∧
    (∀ (m : Msg) (s' : SelState), (histogram_handleMessage m s').1 = none →
      s' = none ∨ effType m = some "clear_selection" ∨
        effType m = some "feature_deselect") ∧
    (∀ (m : Msg) (s' : SelState), (chart1_handleMessage m s').1 = none →
      s' = none ∨ effType m = some "clear_selection" ∨
        effType m = some "feature_deselect") := by
  refine ⟨?_, ?_, ?_, ?_⟩
  · by_cases hg : msg.source = some "scatter_plot"
    · simp [chart1_handleMessage, hg]
    · simp [chart1_handleMessage, hg, ht, h1]
  · by_cases hg : msg.source = some "histogram"
    · simp [histogram_handleMessage, hg]
    · simp [histogram_handleMessage, hg, ht, h2]
  · intro m s' hres
    by_cases hg : m.source = some "histogram"
    · simp [histogram_handleMessage, hg] at hres
      exact Or.inl hres
    · by_cases hc : effType m = some "clear_selection" ∨
        effType m = some "feature_deselect"
      · exact Or.inr hc
      · left
        by_cases hk : effType m = some "hex_click" ∨ effType m = some "feature_click"
        · rcases hid : getIdFromMessage m with _ | id
          · simpa [histogram_handleMessage, hg, hc, hk, hid] using hres
          · simp [histogram_handleMessage, hg, hc, hk, hid] at hres
        · simpa [histogram_handleMessage, hg, hc, hk] using hres
  · intro m s' hres
    by_cases hg : m.source = some "scatter_plot"
    · simp [chart1_handleMessage, hg] at hres
      exact Or.inl hres
    · by_cases hc : effType m = some "clear_selection" ∨
        effType m = some "feature_deselect"
      · exact Or.inr hc
      · left
        by_cases hk : effType m = some "hex_click" ∨ effType m = some "feature_click"
        · rcases hid : chart1_getId m with _ | id
          · simpa [chart1_handleMessage, hg, hc, hk, hid] using hres
          · simp [chart1_handleMessage, hg, hc, hk, hid] at hres
        · simpa [chart1_handleMessage, hg, hc, hk] using hres

/-- C4, witness: a `feature_click` whose `properties` object carries no
recognized identity key (and a blank `name`) leaves a selected bar chart
untouched. -/
theorem c4_witness :
    (effType
        { type := some "feature_click"
          source := some "map"
          properties := some [("foo", "x"), ("name", " ")] }
      = some "feature_click") ∧
    histogram_handleMessage
        { type := some "feature_click"
          source := some "map"
          properties := some [("foo", "x"), ("name", " ")] } (some "F3")
      = (some "F3", .keep) := by
  refine ⟨by decide, ?_⟩
  exact (c4_missing_id_ignored
    { type := some "feature_click"
      source := some "map"
      properties := some [("foo", "x"), ("name", " ")] } (some "F3")
    (by decide) (by decide) (by decide)).2.1

/-- C5, counterexample.  The claim says publish attempts every known path
independently and never raises.  The scatter plot's `sendMessageToMap`
(chart1.py lines 238–257) wraps none of its three `postMessage` calls in
`try/catch`: in an environment where the BroadcastChannel path throws, only
that first path is attempted — the parent-window and own-window paths are
skipped — and the exception propagates to the caller. -/
theorem c5_counterexample :
    runSends (fun p => decide (p = SendPath.broadcastChannel))
        (chart1_sendMessageToMap_stmts true)
      = ([SendPath.broadcastChannel], true) := by
  decide

/-- C5, amended.  The `busSend` helper used by the bar charts and the
dropdowns, and chart1's `broadcastClearSelection`, wrap each delivery path
in its own `try/catch`: whatever subset of paths throws, every path is still
attempted and no exception escapes to the caller.  chart1's
`sendMessageToMap` alone has no such wrapping: it only attempts every path
and returns normally when no path throws, and a throwing path aborts the
remaining paths and propagates. -/
theorem c5_amended (throws : SendPath → Bool) (bcPresent topDistinct : Bool)
    (numFrames : Nat) :
    runSends throws (busSend_stmts bcPresent topDistinct numFrames)
      = ((busSend_stmts bcPresent topDistinct numFrames).map SendStmt.path,
          false) ∧
    runSends throws (chart1_broadcastClear_stmts bcPresent topDistinct numFrames)
      = ((chart1_broadcastClear_stmts bcPresent topDistinct numFrames).map
          SendStmt.path, false) ∧
    ((∀ p, throws p = false) →
      runSends throws (chart1_sendMessageToMap_stmts bcPresent)
        = ((chart1_sendMessageToMap_stmts bcPresent).map SendStmt.path, false)) ∧
    (throws SendPath.broadcastChannel = true →
      runSends throws (chart1_sendMessageToMap_stmts true)
        = ([SendPath.broadcastChannel], true)) := by
  refine ⟨?_, ?_, ?_, ?_⟩
  · exact runSends_allWrapped throws _ (busSend_stmts_wrapped bcPresent topDistinct numFrames)
  · exact runSends_allWrapped throws _
      (chart1_broadcastClear_stmts_wrapped bcPresent topDistinct numFrames)
  · intro hok
    cases bcPresent <;> simp [chart1_sendMessageToMap_stmts, runSends, hok]
  · intro hbc
    simp [chart1_sendMessageToMap_stmts, runSends, hbc]

/-- C5, witness for the amended theorem: with the BroadcastChannel path
throwing, `busSend` with a distinct top window and two sibling frames still
attempts all six paths and swallows the exception, while chart1's
`sendMessageToMap` aborts after the first path and raises. -/
theorem c5_amended_witness :
    ((fun p => decide (p = SendPath.broadcastChannel)) SendPath.broadcastChannel
        = true) ∧
    runSends (fun p => decide (p = SendPath.broadcastChannel))
        (busSend_stmts true true 2)
      = ([SendPath.broadcastChannel, SendPath.parentWindow, SendPath.selfWindow,
          SendPath.topWindow, SendPath.siblingFrame 0, SendPath.siblingFrame 1],
          false) ∧
    runSends (fun p => decide (p = SendPath.broadcastChannel))
        (chart1_sendMessageToMap_stmts true)
      = ([SendPath.broadcastChannel], true) := by
  have h := c5_amended (fun p => decide (p = SendPath.broadcastChannel)) true true 2
  exact ⟨by decide, by rw [h.1]; decide, h.2.2.2 (by decide)⟩

/-- C6, confirmed as stated.  Under any selection state, a validated
non-echo `clear_selection` or `feature_deselect` drives both the
scatter-plot and the bar-chart state machines to Idle and emits the
clear-all-decoration instruction (no entity left highlighted or dimmed);
applying the same clear again to the resulting Idle state yields Idle with
the identical observable outcome — clear is idempotent. -/
theorem c6_clear_idempotent (msg : Msg) (s : SelState) (y : String)
    (ht : effType msg = some "clear_selection" ∨
      effType msg = some "feature_deselect")
    (hg1 : msg.source ≠ some "histogram")
    (hg2 : msg.source ≠ some "scatter_plot") :
    histogram_handleMessage msg s = (none, .clearAll) ∧
    chart1_handleMessage msg s = (none, .clearAll) ∧
    histogram_handleMessage msg (histogram_handleMessage msg s).1
      = (none, .clearAll) ∧
    chart1_handleMessage msg (chart1_handleMessage msg s).1
      = (none, .clearAll) ∧
    decorHighlights .clearAll y = false ∧
    decorDims .clearAll y = false := by
  have hh : ∀ s' : SelState, histogram_handleMessage msg s' = (none, .clearAll) := by
    intro s'
    simp [histogram_handleMessage, hg1, ht]
  have hc : ∀ s' : SelState, chart1_handleMessage msg s' = (none, .clearAll) := by
    intro s'
    simp [chart1_handleMessage, hg2, ht]
  exact ⟨hh s, hc s, hh _, hc _, rfl, rfl⟩

/-- C6, witness: the selector-tagged `feature_deselect` clears a selected
bar chart, and clearing again from Idle is a no-op yielding the same
result. -/
theorem c6_witness :
    (effType { type := some "feature_deselect", source := some "sel" }
        = some "feature_deselect") ∧
    histogram_handleMessage { type := some "feature_deselect", source := some "sel" }
      (some "F7") = (none, .clearAll) ∧
    histogram_handleMessage { type := some "feature_deselect", source := some "sel" }
      none = (none, .clearAll) := by
  have h := c6_clear_idempotent { type := some "feature_deselect", source := some "sel" }
    (some "F7") "F7" (by decide) (by decide) (by decide)
  refine ⟨by decide, h.1, ?_⟩
  have h2 := h.2.2.1
  rwa [h.1] at h2

/-- C7, confirmed as stated.  The bar charts' click handler toggles:
clicking `x` in the Idle state selects it (highlight `x`, dim others,
publish the click); clicking the same `x` again deselects it, returning to
Idle with all decoration cleared and nothing published. -/
theorem c7_toggle (x : String) (b1 b2 : Option (List Rat)) :
    histogram_barClick x b1 none
      = (some x, .highlight x, some (histogram_featureClickMsg x b1)) ∧
    histogram_barClick x b2 (histogram_barClick x b1 none).1
      = (none, .clearAll, none) := by
  constructor
  · simp [histogram_barClick]
  · simp [histogram_barClick]

/-- C8, counterexample.  The claim says every peer that receives a published
`FeatureClick(x)` and has an entity with identity `x` reaches
`Selected(x, Field)` with the highlight instruction.  chart3 publishes
`FeatureClick("F12")`; chart2 — which charts the same fields, so it has an
entity `"F12"` — receives it, but because both bar charts share the origin
tag `'histogram'` the guard discards it: chart2 stays Idle and emits no
decoration instruction. -/
theorem c8_counterexample :
    chart2_handleMessage (chart3_featureClickMsg "F12" none) none
      = (none, Decor.keep) ∧
    (chart2_handleMessage (chart3_featureClickMsg "F12" none) none).1
      ≠ some "F12" := by
  decide

/-- C8, amended.  Cross-widget highlight propagation holds between widgets
whose origin tags differ: a published `FeatureClick(x)` with a non-blank id
`x` drives the receiving scatter-plot or bar-chart handler to
`Selected(x)` with the instruction that highlights exactly `x` and dims
every other entity.  Between the two bar charts, which share the
`'histogram'` tag, the message is discarded and the receiver's state is
unchanged. -/
theorem c8_amended (x : String) (b : Option (List Rat)) (s : SelState)
    (hx : nonBlank x = true) :
    histogram_handleMessage (chart1_featureClickMsg x b) s
      = (some x, .highlight x) ∧
    chart1_handleMessage (histogram_featureClickMsg x b) s
      = (some x, .highlight x) ∧
    decorHighlights (.highlight x) x = true ∧
    (∀ y, y ≠ x → decorHighlights (.highlight x) y = false ∧
      decorDims (.highlight x) y = true) ∧
    chart2_handleMessage (chart3_featureClickMsg x b) s = (s, .keep) := by
  refine ⟨?_, ?_, ?_, ?_, ?_⟩
  · simp [histogram_handleMessage, chart1_featureClickMsg, effType, jsOr, jsTruthy,
      getIdFromMessage, getIdFromList, histogram_ID_FIELDS, lookupField, jsNullish, hx]
  · have hxe : x ≠ "" := nonBlank_ne_empty hx
    simp [chart1_handleMessage, histogram_featureClickMsg, effType, jsOr, jsTruthy,
      chart1_getId, lookupField, hxe]
  · simp [decorHighlights]
  · intro y hy
    constructor
    · simp [decorHighlights]
      exact fun h => absurd h.symm hy
    · simp [decorDims]
      exact fun h => absurd h.symm hy
  · simp [chart2_handleMessage, histogram_handleMessage, chart3_featureClickMsg,
      histogram_featureClickMsg]

/-- C8, witness for the amended theorem at the concrete id `"F12"`. -/
theorem c8_amended_witness :
    nonBlank "F12" = true ∧
    histogram_handleMessage (chart1_featureClickMsg "F12" none) none
      = (some "F12", .highlight "F12") ∧
    chart1_handleMessage (histogram_featureClickMsg "F12" none) (some "F3")
      = (some "F12", .highlight "F12") := by
  refine ⟨by decide, ?_, ?_⟩
  · exact (c8_amended "F12" none none (by decide)).1
  · exact (c8_amended "F12" none (some "F3") (by decide)).2.1

/-- C9, confirmed as stated.  Both bar charts tag everything they publish
(`feature_click` from a bar click, `clear_selection` from a background
click) with the identical origin tag `'histogram'`, and each one's inbound
handler drops any message carrying that tag, so a message published by one
bar chart never changes the other bar chart's selection state or
decoration. -/
theorem c9_histogram_frame (name : String) (b : Option (List Rat)) (s : SelState) :
    (chart2_featureClickMsg name b).source = some "histogram" ∧
    (chart3_featureClickMsg name b).source = some "histogram" ∧
    histogram_clearMsg.source = some "histogram" ∧
    chart3_handleMessage (chart2_featureClickMsg name b) s = (s, .keep) ∧
    chart2_handleMessage (chart3_featureClickMsg name b) s = (s, .keep) ∧
    chart3_handleMessage histogram_clearMsg s = (s, .keep) ∧
    chart2_handleMessage histogram_clearMsg s = (s, .keep) := by
  refine ⟨rfl, rfl, rfl, ?_, ?_, ?_, ?_⟩ <;>
    simp [chart2_handleMessage, chart3_handleMessage, histogram_handleMessage,
      chart2_featureClickMsg, chart3_featureClickMsg, histogram_featureClickMsg,
      histogram_clearMsg]

/-- C10, confirmed as stated.  On load, after the fixed 100 ms timeout and
with no user interaction: the plain selector with a non-empty location list
always publishes a `location_change` for the location whose name equals the
default name when one matches, and for the first location otherwise; the
farm dropdown publishes its auto-select `location_change` exactly when the
default location name is set and matches some location. -/
theorem c10_auto_select (locs : List Location) (dn : Option String)
    (rand : String) (ts : Nat) (hne : locs ≠ []) :
    autoSelectDelayMs = 100 ∧
    (∃ loc, locs.get? (selector_autoTargetIndex locs dn) = some loc ∧
      selector_autoMessage locs dn (selector_componentId rand) ts
        = some (selector_locationMsg (selector_componentId rand) ts loc) ∧
      (selector_locationMsg (selector_componentId rand) ts loc).type
        = some "location_change" ∧
      ((jsTruthy dn = true ∧ ∃ l ∈ locs, some l.name = dn) →
        some loc.name = dn) ∧
      (¬ (jsTruthy dn = true ∧ ∃ l ∈ locs, some l.name = dn) →
        locs.get? 0 = some loc)) ∧
    ((bcgDropdown_autoMessage locs dn (selector_componentId rand) ts).isSome
        = true ↔
      (jsTruthy dn = true ∧ ∃ l ∈ locs, some l.name = dn)) := by
  have hlen : 0 < locs.length := List.length_pos.mpr hne
  have hget0 : ∃ h, locs.get? 0 = some h := by
    cases locs with
    | nil => exact absurd rfl hne
    | cons a t => exact ⟨a, rfl⟩
  refine ⟨rfl, ?_, ?_⟩
  · by_cases hdn : jsTruthy dn = true
    · rcases hfi : jsFindIndex (fun loc => some loc.name == dn) locs with _ | i
      · -- no location matches the default name: fall back to index 0
        obtain ⟨h0, hh0⟩ := hget0
        have htgt : selector_autoTargetIndex locs dn = 0 := by
          simp [selector_autoTargetIndex, hdn, hfi]
        refine ⟨h0, ?_, ?_, rfl, ?_, fun _ => hh0⟩
        · rw [htgt]
          exact hh0
        · unfold selector_autoMessage
          rw [if_pos hlen]
          unfold selector_sendLocation
          rw [htgt, hh0]
        · rintro ⟨-, l, hl, hlname⟩
          have := @jsFindIndex_isSome_of_mem (fun loc => some loc.name == dn)
            locs l hl (by simp [hlname])
          simp [hfi] at this
      · obtain ⟨loc, hget, hp⟩ := jsFindIndex_eq_some hfi
        have hname : some loc.name = dn := by simpa using hp
        have htgt : selector_autoTargetIndex locs dn = i := by
          simp [selector_autoTargetIndex, hdn, hfi]
        refine ⟨loc, ?_, ?_, rfl, fun _ => hname, ?_⟩
        · rw [htgt]
          exact hget
        · unfold selector_autoMessage
          rw [if_pos hlen]
          unfold selector_sendLocation
          rw [htgt, hget]
        · intro hno
          exact absurd ⟨hdn, loc, List.get?_mem hget, hname⟩ hno
    · obtain ⟨h0, hh0⟩ := hget0
      have htgt : selector_autoTargetIndex locs dn = 0 := by
        simp [selector_autoTargetIndex, hdn]
      refine ⟨h0, ?_, ?_, rfl, ?_, fun _ => hh0⟩
      · rw [htgt]
        exact hh0
      · unfold selector_autoMessage
        rw [if_pos hlen]
        unfold selector_sendLocation
        rw [htgt, hh0]
      · rintro ⟨hdn', -⟩
        exact absurd hdn' hdn
  · constructor
    · intro hsome
      by_cases hdn : jsTruthy dn = true
      · rcases hfi : jsFindIndex (fun loc => some loc.name == dn) locs with _ | i
        · simp [bcgDropdown_autoMessage, hlen, hdn, hfi] at hsome
        · obtain ⟨loc, hget, hp⟩ := jsFindIndex_eq_some hfi
          exact ⟨hdn, loc, List.get?_mem hget, by simpa using hp⟩
      · simp [bcgDropdown_autoMessage, hlen, hdn] at hsome
    · rintro ⟨hdn, l, hl, hlname⟩
      have hsome := @jsFindIndex_isSome_of_mem (fun loc => some loc.name == dn)
        locs l hl (by simp [hlname])
      rcases hfi : jsFindIndex (fun loc => some loc.name == dn) locs with _ | i
      · simp [hfi] at hsome
      · obtain ⟨loc, hget, -⟩ := jsFindIndex_eq_some hfi
        have hred : bcgDropdown_autoMessage locs dn (selector_componentId rand) ts
            = bcgDropdown_sendLocation locs (selector_componentId rand) ts i := by
          unfold bcgDropdown_autoMessage
          rw [if_pos hlen, if_pos hdn, hfi]
        rw [hred]
        unfold bcgDropdown_sendLocation
        rw [hget]
        rfl

/-- C10, witness: one location named `"A"`, no default name — the selector
auto-publishes the `location_change` for `"A"`, the farm dropdown publishes
nothing. -/
theorem c10_witness :
    ([({ name := "A", west := 0, south := 0, east := 1, north := 1 } : Location)]
        ≠ []) ∧
    selector_autoMessage
        [{ name := "A", west := 0, south := 0, east := 1, north := 1 }] none
        (selector_componentId "r1") 5
      = some (selector_locationMsg (selector_componentId "r1") 5
          { name := "A", west := 0, south := 0, east := 1, north := 1 }) ∧
    (bcgDropdown_autoMessage
        [{ name := "A", west := 0, south := 0, east := 1, north := 1 }] none
        (selector_componentId "r1") 5).isSome = false := by
  have h := c10_auto_select
    [{ name := "A", west := 0, south := 0, east := 1, north := 1 }] none "r1" 5
    (List.cons_ne_nil _ _)
  obtain ⟨-, ⟨loc, hget, hmsg, -, -, -⟩, hiff⟩ := h
  have hloc : loc = { name := "A", west := 0, south := 0, east := 1, north := 1 } := by
    simpa [selector_autoTargetIndex, jsTruthy] using hget.symm
  rw [hloc] at hmsg
  refine ⟨List.cons_ne_nil _ _, hmsg, ?_⟩
  rcases hb : (bcgDropdown_autoMessage
      [{ name := "A", west := 0, south := 0, east := 1, north := 1 }] none
      (selector_componentId "r1") 5).isSome with _ | _
  · rfl
  · have := hiff.mp hb
    simp [jsTruthy] at this

end FusedMaps
